import Mathlib

/-!
Shallow embedding of `src/smartDevice.js` (a smart-home hub in JavaScript).

Modelling conventions:
* A JS device object is a `Device` record.  Every variant (`Light`,
  `Thermostat`, `DoorLock`) is a `Device` whose `type` field carries the
  string set by the variant constructor; `temperature` is `none` for
  non-thermostats (JS `undefined`).
* JS heap aliasing matters: `SmartHomeSystem.devices` and the observer list
  of the inherited `Subject` hold *references* to the same device objects.
  We model the heap as `store : List Device` and both lists as lists of
  indices (references) into the store.  `addDevice` pushes a fresh object
  and its reference onto both lists; `turnOn`/`turnOff` mutate the store at
  the referenced cell, which is observable through both lists.
* A JS `throw` is modelled as `Option String` (the thrown message);
  operations that mutate before throwing return the mutated state together
  with the error, matching JS semantics where heap mutations survive a
  propagating exception.
* `console.log` output that the spec treats as observable (the
  "Trigger met" lines of `Automation.checkTriggers`) is modelled by
  returning the list of triggers whose condition was met; other log lines
  are pure formatting side effects and are not modelled.
-/

/-- Device record: `id`, `type` and `status` are fields of the base
`SmartDevice` class; `temperature` is the extra field of `Thermostat`
(`none` = JS `undefined` on the other variants). -/
structure Device where
  id : Int
  type : String
  status : String
  temperature : Option Int
deriving DecidableEq, Repr

/-- Constructor of the `Light` class: base fields with `type = "Light"`,
initial status `"off"`. -/
def Light (id : Int) : Device :=
  { id := id, type := ("Light"), status := ("off"), temperature := none }

/-- Constructor of the `Thermostat` class: base fields with
`type = "Thermostat"`, plus `temperature` with its default value 70. -/
def Thermostat (id : Int) : Device :=
  { id := id, type := ("Thermostat"), status := ("off"), temperature := some 70 }

/-- Constructor of the `DoorLock` class: base fields with `type = "Door"`,
then the constructor overwrites `status` with `"locked"`. -/
def DoorLock (id : Int) : Device :=
  { id := id, type := ("Door"), status := ("locked"), temperature := none }

/-- Base-class method `SmartDevice.turnOn`: sets `status` to `"on"`.
No variant overrides it, so it acts on every device, doors included. -/
def SmartDevice.turnOn (d : Device) : Device := { d with status := ("on") }

/-- Base-class method `SmartDevice.turnOff`: sets `status` to `"off"`. -/
def SmartDevice.turnOff (d : Device) : Device := { d with status := ("off") }

/-- Method `DoorLock.lock`: sets `status` to `"locked"`. -/
def DoorLock.lock (d : Device) : Device := { d with status := ("locked") }

/-- Method `DoorLock.unlock`: sets `status` to `"unlocked"`. -/
def DoorLock.unlock (d : Device) : Device := { d with status := ("unlocked") }

/-- Method `Thermostat.setTemperature`: stores the given temperature
(the accompanying `console.log` is not modelled). -/
def Thermostat.setTemperature (d : Device) (temp : Int) : Device :=
  { d with temperature := some temp }

/-- Dynamic dispatch of `getStatus`: the `Thermostat` override reports the
temperature; `Light` uses the base-class template; the `DoorLock` override
produces the same string as the base template would for `type = "Door"`.
Dispatch on the `type` string is faithful because each constructor sets a
distinct `type` and nothing ever mutates it. -/
def SmartDevice.getStatus (d : Device) : String :=
  if d.type == ("Thermostat") then
    match d.temperature with
    | some t => ("Thermostat ") ++ toString d.id ++ (" is set to ") ++ toString t ++ (" degrees.")
    | none => ("Thermostat ") ++ toString d.id ++ (" is set to undefined degrees.")
  else
    d.type ++ (" ") ++ toString d.id ++ (" is ") ++ d.status

/-- Static `SmartDeviceFactory.createDevice`: the `switch` over the type
token; unrecognized tokens throw `Error("Unknown device type")`. -/
def SmartDeviceFactory.createDevice (deviceType : String) (id : Int) : Except String Device :=
  if deviceType == ("light") then .ok (Light id)
  else if deviceType == ("thermostat") then .ok (Thermostat id)
  else if deviceType == ("door") then .ok (DoorLock id)
  else .error ("Unknown device type")

/-- Auxiliary for `jsSplit`: the accumulator holds the current field in
reverse. -/
def jsSplitAux (sep : Char) : List Char → List Char → List String
  | [], acc => [String.mk acc.reverse]
  | c :: rest, acc =>
    if c = sep then String.mk acc.reverse :: jsSplitAux sep rest []
    else jsSplitAux sep rest (c :: acc)

/-- JS `s.split(sep)` for a single-character separator: splits at every
occurrence, keeping empty fields, and `"".split(sep)` is `[""]`. -/
def jsSplit (s : String) (sep : Char) : List String :=
  jsSplitAux sep s.toList []

/-- Value of a character as a digit, matching the digit alphabet JS
`parseInt` accepts (0-9, a-z, A-Z); 99 is a sentinel ≥ every radix. -/
def digitVal (c : Char) : Nat :=
  if c.isDigit then c.toNat - 48
  else if ('a' ≤ c && c ≤ 'z') then c.toNat - 87
  else if ('A' ≤ c && c ≤ 'Z') then c.toNat - 55
  else 99

/-- Greedy parse of a digit prefix in the given radix; `none` (JS `NaN`)
when no leading character is a digit of the radix. -/
def parseRadix (radix : Nat) (cs : List Char) : Option Nat :=
  let ds := cs.takeWhile (fun c => digitVal c < radix)
  if ds.isEmpty then none
  else some (ds.foldl (fun a c => a * radix + digitVal c) 0)

/-- Digit part of JS `parseInt` with no explicit radix: a `0x`/`0X` prefix
selects hexadecimal, otherwise decimal. -/
def parseIntBody (cs : List Char) : Option Nat :=
  match cs with
  | '0' :: 'x' :: rest => parseRadix 16 rest
  | '0' :: 'X' :: rest => parseRadix 16 rest
  | _ => parseRadix 10 cs

/-- JS `parseInt(s)` (radix argument omitted): skip leading whitespace,
optional sign, then the greedy digit prefix; `none` models `NaN`. -/
def jsParseInt (s : String) : Option Int :=
  match s.toList.dropWhile (fun c => c.isWhitespace) with
  | '-' :: cs => (parseIntBody cs).map (fun n => -(n : Int))
  | '+' :: cs => (parseIntBody cs).map (fun n => (n : Int))
  | cs => (parseIntBody cs).map (fun n => (n : Int))

/-- An automation rule as stored by `Automation.addTrigger`. -/
structure Trigger where
  condition : String
  action : String
deriving DecidableEq, Repr

/-- Body of the condition test of `Automation.checkTriggers`, after
`condition.split(' ')`: the destructuring
`const [property, operator, value] = toks` takes the first three tokens
(missing ones are `undefined`, here `none`), and the guard is
`property === 'temperature' && operator === '>' &&
thermostat.temperature > parseInt(value)`.  A comparison against JS `NaN`
or `undefined` is false, hence the `match` falling through to `false`. -/
def Automation.condMetToks (toks : List String) (temperature : Option Int) : Bool :=
  let property := toks.get? 0
  let operator := toks.get? 1
  let value := toks.get? 2
  property == some ("temperature") && operator == some (">") &&
    (match temperature, value.bind jsParseInt with
     | some t, some n => decide (t > n)
     | _, _ => false)

/-- Condition test of one trigger: split on a single space character
(JS `split(' ')`) and test the first three tokens. -/
def Automation.condMet (condition : String) (temperature : Option Int) : Bool :=
  Automation.condMetToks (jsSplit condition (' ')) temperature

/-- `Automation.checkTriggers(thermostat)`: iterates over the triggers in
insertion order; the returned list contains exactly the triggers whose
condition was met, i.e. those for which the JS code prints the
`Trigger met` line.  The `action` string is only printed, never executed,
and no rule evaluation can throw. -/
def Automation.checkTriggers (triggers : List Trigger) (thermostat : Device) : List Trigger :=
  triggers.filter (fun tr => Automation.condMet tr.condition thermostat.temperature)

/-- A scheduled task as stored by `Scheduler.setSchedule`: the JS object
holds a reference to the device object, modelled as a store index. -/
structure ScheduledTask where
  device : Nat
  time : String
  command : String
deriving DecidableEq, Repr

/-- The event object `{action, deviceId}` passed to `notify`. -/
structure NotifyEvent where
  action : String
  deviceId : Int
deriving DecidableEq, Repr

/-- Message of the string thrown by the base `Observer.update`, which no
device variant overrides. -/
def Observer.updateMessage : String := "Observer update method should be implemented"

/-- The central hub (`class SmartHomeSystem extends Subject`).  `store` is
the heap of device objects; `devices` (the registry) and `observers` (the
listener list inherited from `Subject`) are lists of references into it.
`scheduledTasks` is the state of the owned `Scheduler`, `triggers` the
state of the owned `Automation`. -/
structure SmartHomeSystem where
  store : List Device
  devices : List Nat
  observers : List Nat
  scheduledTasks : List ScheduledTask
  triggers : List Trigger
deriving DecidableEq, Repr

/-- `new SmartHomeSystem()`: everything empty. -/
def emptySystem : SmartHomeSystem := ⟨[], [], [], [], []⟩

/-- The registry with references dereferenced: the sequence of device
objects in registration order, as JS code sees `this.devices`. -/
def SmartHomeSystem.resolvedDevices (h : SmartHomeSystem) : List Device :=
  h.devices.filterMap (fun r => h.store.get? r)

/-- `this.devices.find(d => d.id === deviceId)`, returning the reference of
the first matching device (references are only ever created valid, so the
`none` guard is unreachable for reachable systems). -/
def SmartHomeSystem.findDevice (h : SmartHomeSystem) (deviceId : Int) : Option Nat :=
  h.devices.find? (fun r =>
    match h.store.get? r with
    | some d => d.id == deviceId
    | none => false)

/-- `Subject.notify(data)`: `forEach` calls `update(data)` on each listener
in order.  Every listener is a device, every device inherits the base
`Observer.update`, which immediately throws; so with at least one listener
the first call throws (aborting the loop with no state change), and with no
listeners `notify` returns normally. -/
def SmartHomeSystem.notify (h : SmartHomeSystem) (_event : NotifyEvent) : Option String :=
  match h.observers with
  | [] => none
  | _ :: _ => some Observer.updateMessage

/-- `SmartHomeSystem.addDevice(type, id)`: create via the factory (a throw
there propagates with no state change), push the new object, and register
the same reference as an observer. -/
def SmartHomeSystem.addDevice (h : SmartHomeSystem) (deviceType : String) (id : Int) :
    SmartHomeSystem × Option String :=
  match SmartDeviceFactory.createDevice deviceType id with
  | .error e => (h, some e)
  | .ok d =>
    ({ h with
        store := h.store ++ [d],
        devices := h.devices ++ [h.store.length],
        observers := h.observers ++ [h.store.length] }, none)

/-- `SmartHomeSystem.turnOn(deviceId)`: linear scan; on a miss, silent
no-op.  On a hit the device object is mutated first, then `notify` runs —
which throws (listener list is nonempty, it contains the device itself),
with the mutation already applied to the heap.  The `Light 0` default of
`getD` is unreachable: `findDevice` only returns references with a stored
device. -/
def SmartHomeSystem.turnOn (h : SmartHomeSystem) (deviceId : Int) :
    SmartHomeSystem × Option String :=
  match h.findDevice deviceId with
  | none => (h, none)
  | some r =>
    let h' := { h with store := h.store.set r (SmartDevice.turnOn (h.store.getD r (Light 0))) }
    (h', h'.notify ⟨("turnOn"), deviceId⟩)

/-- `SmartHomeSystem.turnOff(deviceId)`: same shape as `turnOn`. -/
def SmartHomeSystem.turnOff (h : SmartHomeSystem) (deviceId : Int) :
    SmartHomeSystem × Option String :=
  match h.findDevice deviceId with
  | none => (h, none)
  | some r =>
    let h' := { h with store := h.store.set r (SmartDevice.turnOff (h.store.getD r (Light 0))) }
    (h', h'.notify ⟨("turnOff"), deviceId⟩)

/-- `SmartHomeSystem.setSchedule(deviceId, time, command)`: resolve the
device; if found, `Scheduler.setSchedule` appends the task (storing the
device reference); silent no-op otherwise.  Never throws. -/
def SmartHomeSystem.setSchedule (h : SmartHomeSystem) (deviceId : Int)
    (time command : String) : SmartHomeSystem :=
  match h.findDevice deviceId with
  | none => h
  | some r => { h with scheduledTasks := h.scheduledTasks ++ [⟨r, time, command⟩] }

/-- `SmartHomeSystem.addTrigger(condition, action)`: unconditional append
via `Automation.addTrigger`. -/
def SmartHomeSystem.addTrigger (h : SmartHomeSystem) (condition action : String) :
    SmartHomeSystem :=
  { h with triggers := h.triggers ++ [⟨condition, action⟩] }

/-- `SmartHomeSystem.checkTriggers()`: find the first device whose `type`
is `"Thermostat"` (registration order) and evaluate the rules against it;
no-op (nothing fired) when there is none.  Pure: it mutates nothing and
cannot throw. -/
def SmartHomeSystem.checkTriggers (h : SmartHomeSystem) : List Trigger :=
  match (h.resolvedDevices).find? (fun d => d.type == ("Thermostat")) with
  | some t => Automation.checkTriggers h.triggers t
  | none => []

/-- `SmartHomeSystem.getStatusReport()`: map `getStatus` over the registry
in order and join with newlines. -/
def SmartHomeSystem.getStatusReport (h : SmartHomeSystem) : String :=
  String.intercalate ("\n") (h.resolvedDevices.map SmartDevice.getStatus)

/-- One invocation of a public hub operation, for stating reachability. -/
inductive HubOp where
  | addDevice (deviceType : String) (id : Int)
  | turnOn (id : Int)
  | turnOff (id : Int)
  | setSchedule (id : Int) (time command : String)
  | addTrigger (condition action : String)
  | checkTriggers
deriving DecidableEq, Repr

/-- State reached after one public operation (a thrown error leaves exactly
the state the operation had produced so far, as in JS where the heap
survives a propagating exception). -/
def SmartHomeSystem.applyOp (h : SmartHomeSystem) (op : HubOp) : SmartHomeSystem :=
  match op with
  | .addDevice t i => (h.addDevice t i).1
  | .turnOn i => (h.turnOn i).1
  | .turnOff i => (h.turnOff i).1
  | .setSchedule i t c => h.setSchedule i t c
  | .addTrigger c a => h.addTrigger c a
  | .checkTriggers => h

/-- State reached from a start state by a sequence of public operations. -/
def SmartHomeSystem.runOps (h : SmartHomeSystem) (ops : List HubOp) : SmartHomeSystem :=
  ops.foldl SmartHomeSystem.applyOp h

/-- One direct operation on a device object (the mutators reachable on a
`DoorLock`: the inherited base `turnOn`/`turnOff` and its own
`lock`/`unlock`). -/
inductive DeviceOp where
  | turnOn
  | turnOff
  | lock
  | unlock
deriving DecidableEq, Repr

/-- Apply one direct device operation. -/
def DeviceOp.apply (op : DeviceOp) (d : Device) : Device :=
  match op with
  | .turnOn => SmartDevice.turnOn d
  | .turnOff => SmartDevice.turnOff d
  | .lock => DoorLock.lock d
  | .unlock => DoorLock.unlock d

/-- Apply a sequence of direct device operations. -/
def applyDeviceOps (ops : List DeviceOp) (d : Device) : Device :=
  ops.foldl (fun d op => DeviceOp.apply op d) d

/-- The statuses a `DoorLock` can exhibit under the code's mutators. -/
def doorStatuses : List String := [("locked"), ("unlocked"), ("on"), ("off")]

/-- The demo system after the three `addDevice` calls of the example
usage block. -/
def demoSystem3 : SmartHomeSystem :=
  (((emptySystem.addDevice ("light") 1).1.addDevice ("thermostat") 2).1.addDevice ("door") 3).1

/-- The demo system after the full example sequence, continuing past the
throw raised inside `turnOn(1)` (whose heap mutation survives). -/
def demoAfter : SmartHomeSystem :=
  (((demoSystem3.turnOn 1).1.setSchedule 2 ("06:00") ("Turn On")).addTrigger
    ("temperature > 75")) ("turnOff(1)")

/-- Generic helper: `find?` over a list split as `pre ++ t :: post` where
no element of `pre` satisfies the predicate and `t` does. -/
theorem find?_append_cons {α : Type} (p : α → Bool) (pre : List α) (t : α) (post : List α)
    (hpre : ∀ x ∈ pre, ¬ p x) (ht : p t) :
    (pre ++ t :: post).find? p = some t := by
  induction pre with
  | nil => simp [List.find?_cons, ht]
  | cons a as ih =>
    have ha : ¬ p a := hpre a (List.mem_cons_self a as)
    simp only [List.cons_append, List.find?_cons]
    simp only [Bool.not_eq_true] at ha
    rw [ha]
    exact ih (fun x hx => hpre x (List.mem_cons_of_mem a hx))

/-- C1 (code_bug): the end-to-end demo sequence does not complete.
`turnOn(1)` mutates the light, then `notify` calls `update` on the first
listener, and since no device class overrides the base `Observer.update`,
the string `Observer update method should be implemented` is thrown.  The
first conjunct evaluates the code at the failing input.  The remaining
conjuncts show that every other observation the claim makes does hold on
the state the throw leaves behind (continuing past the exception): the
three status-report lines in registration order, exactly one scheduled
task whose device reference resolves to the Thermostat with id 2, and no
fired trigger (70 ≤ 75). -/
theorem c1_demo_sequence_throws :
    (demoSystem3.turnOn 1).2 = some ("Observer update method should be implemented")
    ∧ demoAfter.getStatusReport =
        ("Light 1 is on\nThermostat 2 is set to 70 degrees.\nDoor 3 is locked")
    ∧ demoAfter.scheduledTasks = [⟨1, ("06:00"), ("Turn On")⟩]
    ∧ demoAfter.store.get? 1 = some (Thermostat 2)
    ∧ demoAfter.checkTriggers = [] := by
  refine ⟨?_, ?_, ?_, ?_, ?_⟩ <;> decide

/-- C2: for every kind token other than `"light"`, `"thermostat"` and
`"door"` and every id, the factory fails with the unknown-device-type
error (never a fallback device), and `addDevice` propagates exactly that
error to its caller, adding nothing. -/
theorem c2_unknown_kind_error_propagates (deviceType : String) (id : Int)
    (h : SmartHomeSystem)
    (h1 : deviceType ≠ "light") (h2 : deviceType ≠ "thermostat") (h3 : deviceType ≠ "door") :
    SmartDeviceFactory.createDevice deviceType id = .error ("Unknown device type")
    ∧ h.addDevice deviceType id = (h, some ("Unknown device type")) := by
  have e : SmartDeviceFactory.createDevice deviceType id = .error ("Unknown device type") := by
    unfold SmartDeviceFactory.createDevice
    simp [h1, h2, h3]
  refine ⟨e, ?_⟩
  unfold SmartHomeSystem.addDevice
  rw [e]

/-- Witness for C2 at the concrete token `"fan"`. -/
theorem c2_witness :
    SmartDeviceFactory.createDevice ("fan") 7 = .error ("Unknown device type")
    ∧ emptySystem.addDevice ("fan") 7 = (emptySystem, some ("Unknown device type")) :=
  c2_unknown_kind_error_propagates ("fan") 7 emptySystem (by decide) (by decide) (by decide)

/-- C4: the rule `temperature > 75` fires against a Thermostat at 80
degrees and does not fire against the default 70 degrees. -/
theorem c4_threshold_rule_fires_iff_above :
    Automation.checkTriggers [⟨("temperature > 75"), ("turnOff(1)")⟩]
        (Thermostat.setTemperature (Thermostat 1) 80)
      = [⟨("temperature > 75"), ("turnOff(1)")⟩]
    ∧ Automation.checkTriggers [⟨("temperature > 75"), ("turnOff(1)")⟩] (Thermostat 1)
      = [] := by
  exact ⟨by decide, by decide⟩

/-- C5: `turnOn` on an id that matches no registered device is a complete
no-op: the returned state is the very same system (registry, listener
list, heap and hence every device status unchanged) and nothing is thrown;
`notify` is never reached, so no notification is emitted. -/
theorem c5_turnOn_unknown_id_noop (h : SmartHomeSystem) (deviceId : Int)
    (hid : ∀ d ∈ h.resolvedDevices, d.id ≠ deviceId) :
    h.turnOn deviceId = (h, none) := by
  have hf : h.findDevice deviceId = none := by
    unfold SmartHomeSystem.findDevice
    rw [List.find?_eq_none]
    intro r hr
    cases hg : h.store.get? r with
    | none => simp [hg]
    | some d =>
      have hd : d ∈ h.resolvedDevices := by
        unfold SmartHomeSystem.resolvedDevices
        exact List.mem_filterMap.mpr ⟨r, hr, by rw [hg]⟩
      simp [hg, hid d hd]
  unfold SmartHomeSystem.turnOn
  rw [hf]

/-- Witness for C5: id 99 matches none of the three demo devices. -/
theorem c5_witness : demoSystem3.turnOn 99 = (demoSystem3, none) :=
  c5_turnOn_unknown_id_noop demoSystem3 99 (by decide)

/-- Counterexample for C6: a condition with four tokens (under both
single-space and whitespace splitting) is *not* skipped: JS array
destructuring takes the first three tokens and ignores the rest, so
`temperature > 75 extra` fires against a Thermostat at 80 degrees, while
the claim says every rule with more than three tokens never fires. -/
theorem c6_counterexample :
    (jsSplit ("temperature > 75 extra") (' ')).length = 4
    ∧ Automation.checkTriggers [⟨("temperature > 75 extra"), ("turnOff(1)")⟩]
        (Thermostat.setTemperature (Thermostat 1) 80)
      = [⟨("temperature > 75 extra"), ("turnOff(1)")⟩] := by
  exact ⟨by decide, by decide⟩

/-- C6 (amended): a rule whose condition splits into fewer than three
space-separated tokens never fires and raises no error (the evaluator is
total); a rule with three or more tokens is evaluated using only its first
three tokens, extras ignored. -/
theorem c6_amended_short_conditions_skipped :
    (∀ (condition : String) (temperature : Option Int),
        (jsSplit condition (' ')).length < 3 →
        Automation.condMet condition temperature = false)
    ∧ ∀ (condition : String) (temperature : Option Int),
        Automation.condMet condition temperature
          = Automation.condMetToks ((jsSplit condition (' ')).take 3) temperature := by
  constructor
  · intro condition temperature hlen
    unfold Automation.condMet Automation.condMetToks
    have h2 : (jsSplit condition (' ')).get? 2 = none := by
      rw [List.get?_eq_none]
      omega
    rw [h2]
    cases temperature <;> simp
  · intro condition temperature
    unfold Automation.condMet Automation.condMetToks
    by_cases hlen : 3 ≤ (jsSplit condition (' ')).length
    · have e0 : ((jsSplit condition (' ')).take 3).get? 0 = (jsSplit condition (' ')).get? 0 :=
        List.get?_take (by omega)
      have e1 : ((jsSplit condition (' ')).take 3).get? 1 = (jsSplit condition (' ')).get? 1 :=
        List.get?_take (by omega)
      have e2 : ((jsSplit condition (' ')).take 3).get? 2 = (jsSplit condition (' ')).get? 2 :=
        List.get?_take (by omega)
      rw [e0, e1, e2]
    · have hlt : (jsSplit condition (' ')).length ≤ 3 := by omega
      rw [List.take_of_length_le hlt]

/-- Witness for C6 (amended): a one-token condition never fires at 80
degrees, and the four-token condition is evaluated by its first three
tokens. -/
theorem c6_amended_witness :
    Automation.condMet ("temperature") (some 80) = false
    ∧ Automation.condMet ("temperature > 75 extra") (some 80)
      = Automation.condMetToks ((jsSplit ("temperature > 75 extra") (' ')).take 3) (some 80) :=
  ⟨c6_amended_short_conditions_skipped.1 ("temperature") (some 80) (by decide),
   c6_amended_short_conditions_skipped.2 ("temperature > 75 extra") (some 80)⟩

/-- C7: a rule whose value token does not parse as an integer under JS
`parseInt` (e.g. `abc`) never fires — it is never in the fired list — and
raises no error, and its presence never prevents the rules around it from
being evaluated: the fired list of `pre ++ rule :: post` is exactly the
fired list of `pre` followed by the fired list of `post`. -/
theorem c7_nan_value_rule_fail_soft (condition action v : String) (thermostat : Device)
    (pre post : List Trigger)
    (hv : (jsSplit condition (' ')).get? 2 = some v)
    (hnan : jsParseInt v = none) :
    Automation.checkTriggers (pre ++ ⟨condition, action⟩ :: post) thermostat
      = Automation.checkTriggers pre thermostat ++ Automation.checkTriggers post thermostat
    ∧ Trigger.mk condition action
        ∉ Automation.checkTriggers (pre ++ ⟨condition, action⟩ :: post) thermostat := by
  have hno : Automation.condMet condition thermostat.temperature = false := by
    unfold Automation.condMet Automation.condMetToks
    rw [hv]
    cases thermostat.temperature <;> simp [hnan]
  have happ : Automation.checkTriggers (pre ++ ⟨condition, action⟩ :: post) thermostat
      = Automation.checkTriggers pre thermostat ++ Automation.checkTriggers post thermostat := by
    unfold Automation.checkTriggers
    rw [List.filter_append, List.filter_cons]
    simp [hno]
  refine ⟨happ, ?_⟩
  rw [happ]
  intro hmem
  rcases List.mem_append.mp hmem with hm | hm <;>
    exact absurd (List.of_mem_filter hm) (by simp [hno])

/-- Witness for C7 at the spec's example `temperature > abc`. -/
theorem c7_witness :
    Automation.checkTriggers ([] ++ ⟨("temperature > abc"), ("turnOff(1)")⟩ :: []) (Thermostat 1)
      = Automation.checkTriggers [] (Thermostat 1) ++ Automation.checkTriggers [] (Thermostat 1)
    ∧ Trigger.mk ("temperature > abc") ("turnOff(1)")
        ∉ Automation.checkTriggers ([] ++ ⟨("temperature > abc"), ("turnOff(1)")⟩ :: [])
            (Thermostat 1) :=
  c7_nan_value_rule_fail_soft ("temperature > abc") ("turnOff(1)") ("abc") (Thermostat 1) [] []
    (by decide) (by decide)

/-- C8: `checkTriggers` evaluates the rules against exactly the first
Thermostat in registration order — whatever devices follow it, Thermostats
included, never take part — and with no Thermostat registered it is a
no-op: nothing is evaluated or fired (and, the model being pure, no state
changes and nothing is thrown). -/
theorem c8_first_thermostat_only :
    (∀ h : SmartHomeSystem,
        (∀ d ∈ h.resolvedDevices, d.type ≠ "Thermostat") → h.checkTriggers = [])
    ∧ ∀ (h : SmartHomeSystem) (pre : List Device) (t : Device) (post : List Device),
        h.resolvedDevices = pre ++ t :: post →
        (∀ d ∈ pre, d.type ≠ "Thermostat") →
        t.type = ("Thermostat") →
        h.checkTriggers = Automation.checkTriggers h.triggers t := by
  constructor
  · intro h hno
    unfold SmartHomeSystem.checkTriggers
    have hf : (h.resolvedDevices).find? (fun d => d.type == ("Thermostat")) = none := by
      rw [List.find?_eq_none]
      intro d hd
      simp [hno d hd]
    rw [hf]
  · intro h pre t post hres hpre ht
    unfold SmartHomeSystem.checkTriggers
    rw [hres, find?_append_cons _ pre t post (fun x hx => by simp [hpre x hx]) (by simp [ht])]

/-- Witness for C8: the empty system fires nothing; in the demo system the
first (and only) Thermostat is the one evaluated against. -/
theorem c8_witness :
    emptySystem.checkTriggers = []
    ∧ demoSystem3.checkTriggers = Automation.checkTriggers demoSystem3.triggers (Thermostat 2) :=
  ⟨c8_first_thermostat_only.1 emptySystem (by decide),
   c8_first_thermostat_only.2 demoSystem3 [Light 1] (Thermostat 2) [DoorLock 3]
     (by decide) (by decide) (by decide)⟩

/-- Helper: every device the factory can produce starts with status
`"off"` (Light, Thermostat) or `"locked"` (DoorLock). -/
theorem createDevice_status (deviceType : String) (id : Int) (d : Device)
    (hc : SmartDeviceFactory.createDevice deviceType id = .ok d) :
    d.status = ("off") ∨ d.status = ("locked") := by
  unfold SmartDeviceFactory.createDevice at hc
  split at hc
  · cases hc; left; rfl
  · split at hc
    · cases hc; left; rfl
    · split at hc
      · cases hc; right; rfl
      · cases hc

/-- Helper: every public hub operation keeps every stored device's status
inside `doorStatuses` (the four tokens the mutators can write, plus the
two initial tokens, which coincide with them). -/
theorem applyOp_status_mem (h : SmartHomeSystem) (op : HubOp)
    (hinv : ∀ d ∈ h.store, d.status ∈ doorStatuses) :
    ∀ d ∈ (h.applyOp op).store, d.status ∈ doorStatuses := by
  cases op with
  | addDevice t i =>
    simp only [SmartHomeSystem.applyOp, SmartHomeSystem.addDevice]
    cases hc : SmartDeviceFactory.createDevice t i with
    | error e => simpa [hc] using hinv
    | ok d =>
      simp only [hc]
      intro x hx
      rcases List.mem_append.mp hx with hm | hm
      · exact hinv x hm
      · have hd := createDevice_status t i d hc
        have hxd : x = d := by simpa using hm
        subst hxd
        rcases hd with hs | hs <;> simp [hs, doorStatuses]
  | turnOn i =>
    simp only [SmartHomeSystem.applyOp, SmartHomeSystem.turnOn]
    cases hf : h.findDevice i with
    | none => simpa [hf] using hinv
    | some r =>
      simp only [hf]
      intro x hx
      rcases List.mem_or_eq_of_mem_set hx with hm | hm
      · exact hinv x hm
      · subst hm; simp [SmartDevice.turnOn, doorStatuses]
  | turnOff i =>
    simp only [SmartHomeSystem.applyOp, SmartHomeSystem.turnOff]
    cases hf : h.findDevice i with
    | none => simpa [hf] using hinv
    | some r =>
      simp only [hf]
      intro x hx
      rcases List.mem_or_eq_of_mem_set hx with hm | hm
      · exact hinv x hm
      · subst hm; simp [SmartDevice.turnOff, doorStatuses]
  | setSchedule i t c =>
    simp only [SmartHomeSystem.applyOp, SmartHomeSystem.setSchedule]
    cases hf : h.findDevice i with
    | none => simpa [hf] using hinv
    | some r => simpa [hf] using hinv
  | addTrigger c a =>
    simpa [SmartHomeSystem.applyOp, SmartHomeSystem.addTrigger] using hinv
  | checkTriggers =>
    simpa [SmartHomeSystem.applyOp] using hinv

/-- Helper: the status invariant holds along every run of public hub
operations from a start state satisfying it. -/
theorem runOps_status_mem (ops : List HubOp) (h : SmartHomeSystem)
    (hinv : ∀ d ∈ h.store, d.status ∈ doorStatuses) :
    ∀ d ∈ (h.runOps ops).store, d.status ∈ doorStatuses := by
  induction ops generalizing h with
  | nil => exact hinv
  | cons op ops ih => exact ih (h.applyOp op) (applyOp_status_mem h op hinv)

/-- Helper: one direct device operation always writes a status inside
`doorStatuses`, whatever the device was. -/
theorem deviceOp_status_mem (op : DeviceOp) (d : Device) :
    (DeviceOp.apply op d).status ∈ doorStatuses := by
  cases op <;>
    simp [DeviceOp.apply, SmartDevice.turnOn, SmartDevice.turnOff, DoorLock.lock,
      DoorLock.unlock, doorStatuses]

/-- Counterexample for C3: the claim says a DoorLock's status stays in
{locked, unlocked} under every sequence of Hub and device operations, but
`DoorLock` inherits the base `SmartDevice.turnOn`, so one `turnOn` sets a
door's status to `"on"`; the same shows up through the hub (the heap cell
is mutated before `notify` throws). -/
theorem c3_counterexample :
    (SmartDevice.turnOn (DoorLock 3)).status = ("on")
    ∧ (((emptySystem.addDevice ("door") 3).1.turnOn 3).1.store)
        = [{ id := 3, type := ("Door"), status := ("on"), temperature := none }]
    ∧ ("on") ≠ ("locked") ∧ ("on") ≠ ("unlocked") := by
  refine ⟨by decide, by decide, by decide, by decide⟩

/-- C3 (amended): a DoorLock's status immediately after creation is
`"locked"`, and after every sequence of direct device operations (the
inherited `turnOn`/`turnOff` and its own `lock`/`unlock`) and every run of
public hub operations from a fresh hub, its status stays in
{locked, unlocked, on, off}: the inherited mutators can take it to
`"on"`/`"off"`, so {locked, unlocked} alone is not invariant. -/
theorem c3_amended_door_status (id : Int) (ops : List DeviceOp) (hops : List HubOp) :
    (DoorLock id).status = ("locked")
    ∧ (applyDeviceOps ops (DoorLock id)).status ∈ doorStatuses
    ∧ ∀ d ∈ (emptySystem.runOps hops).store, d.type = ("Door") → d.status ∈ doorStatuses := by
  refine ⟨rfl, ?_, ?_⟩
  · have hgen : ∀ (l : List DeviceOp) (d : Device), d.status ∈ doorStatuses →
        (applyDeviceOps l d).status ∈ doorStatuses := by
      intro l
      induction l with
      | nil => intro d hd; exact hd
      | cons op l ih =>
        intro d _
        exact ih (DeviceOp.apply op d) (deviceOp_status_mem op d)
    exact hgen ops (DoorLock id) (by simp [DoorLock, doorStatuses])
  · intro d hd _
    exact runOps_status_mem hops emptySystem (by decide) d hd

/-- Witness for C3 (amended): door 3, one inherited `turnOn`, and the
one-operation hub run that registers the door. -/
theorem c3_amended_witness :
    (DoorLock 3).status = ("locked")
    ∧ (applyDeviceOps [DeviceOp.turnOn] (DoorLock 3)).status ∈ doorStatuses
    ∧ (DoorLock 3).status ∈ doorStatuses :=
  have h := c3_amended_door_status 3 [DeviceOp.turnOn] [HubOp.addDevice ("door") 3]
  ⟨h.1, h.2.1, h.2.2 (DoorLock 3) (by decide) (by decide)⟩

/-- Helper: every public hub operation preserves `observers = devices`
(the listener list stays reference-for-reference equal to the registry). -/
theorem applyOp_observers_eq (h : SmartHomeSystem) (op : HubOp)
    (hinv : h.observers = h.devices) :
    (h.applyOp op).observers = (h.applyOp op).devices := by
  cases op with
  | addDevice t i =>
    simp only [SmartHomeSystem.applyOp, SmartHomeSystem.addDevice]
    cases hc : SmartDeviceFactory.createDevice t i with
    | error e => simpa [hc] using hinv
    | ok d => simp [hc, hinv]
  | turnOn i =>
    simp only [SmartHomeSystem.applyOp, SmartHomeSystem.turnOn]
    cases hf : h.findDevice i with
    | none => simpa [hf] using hinv
    | some r => simp [hf, hinv]
  | turnOff i =>
    simp only [SmartHomeSystem.applyOp, SmartHomeSystem.turnOff]
    cases hf : h.findDevice i with
    | none => simpa [hf] using hinv
    | some r => simp [hf, hinv]
  | setSchedule i t c =>
    simp only [SmartHomeSystem.applyOp, SmartHomeSystem.setSchedule]
    cases hf : h.findDevice i with
    | none => simpa [hf] using hinv
    | some r => simp [hf, hinv]
  | addTrigger c a =>
    simpa [SmartHomeSystem.applyOp, SmartHomeSystem.addTrigger] using hinv
  | checkTriggers =>
    simpa [SmartHomeSystem.applyOp] using hinv

/-- Helper: `observers = devices` holds along every run of public hub
operations from a start state satisfying it. -/
theorem runOps_observers_eq (ops : List HubOp) (h : SmartHomeSystem)
    (hinv : h.observers = h.devices) :
    (h.runOps ops).observers = (h.runOps ops).devices := by
  induction ops generalizing h with
  | nil => exact hinv
  | cons op ops ih => exact ih (h.applyOp op) (applyOp_observers_eq h op hinv)

/-- C9: in every hub reachable through the public operations from a fresh
hub, the listener list equals the device registry — the same references in
the same order, no extra listeners. -/
theorem c9_listeners_equal_registry (ops : List HubOp) :
    (emptySystem.runOps ops).observers = (emptySystem.runOps ops).devices :=
  runOps_observers_eq ops emptySystem rfl

/-- C10: a failing `addDevice` (unrecognized kind token) is atomic: the
factory throws before anything is pushed, so the registry, the listener
list, the heap, the scheduler's task list and the rule list are all
exactly as before the call. -/
theorem c10_addDevice_atomic_on_error (h : SmartHomeSystem) (deviceType : String) (id : Int)
    (h1 : deviceType ≠ "light") (h2 : deviceType ≠ "thermostat") (h3 : deviceType ≠ "door") :
    (h.addDevice deviceType id).1.devices = h.devices
    ∧ (h.addDevice deviceType id).1.observers = h.observers
    ∧ (h.addDevice deviceType id).1.store = h.store
    ∧ (h.addDevice deviceType id).1.scheduledTasks = h.scheduledTasks
    ∧ (h.addDevice deviceType id).1.triggers = h.triggers := by
  have e : SmartDeviceFactory.createDevice deviceType id = .error ("Unknown device type") := by
    unfold SmartDeviceFactory.createDevice
    simp [h1, h2, h3]
  unfold SmartHomeSystem.addDevice
  rw [e]
  exact ⟨rfl, rfl, rfl, rfl, rfl⟩

/-- Witness for C10 at the concrete token `"fan"` against the demo hub. -/
theorem c10_witness :
    (demoSystem3.addDevice ("fan") 9).1.devices = demoSystem3.devices
    ∧ (demoSystem3.addDevice ("fan") 9).1.observers = demoSystem3.observers
    ∧ (demoSystem3.addDevice ("fan") 9).1.store = demoSystem3.store
    ∧ (demoSystem3.addDevice ("fan") 9).1.scheduledTasks = demoSystem3.scheduledTasks
    ∧ (demoSystem3.addDevice ("fan") 9).1.triggers = demoSystem3.triggers :=
  c10_addDevice_atomic_on_error demoSystem3 ("fan") 9 (by decide) (by decide) (by decide)
